import Mathlib

/-!
  # ThingID — verified model of the access-pass lifecycle

  A shallow embedding of the `ThingID` Solidity contract
  (`src/contracts/ThingID.sol`): IoT device registration and time-boxed
  viewer access passes. Addresses and `bytes32` device identifiers are
  modelled as `Nat` (with `0` standing for the zero address), `uint256`
  timestamps and durations as `Nat`, and Solidity `require`/revert
  semantics as `Except`: an operation that reverts returns `.error e` and
  produces no successor state, so "no state change on failure" is a
  property of the embedding itself. Solidity mappings become total
  functions with the type's zero value as default, exactly as on chain.
  The one opaque ingredient, `keccak256(abi.encodePacked(did, sender,
  timestamp))`, is modelled by passing the hash output `deviceId` as an
  explicit argument to `registerDevice`; the contract's collision guard
  (`require(devices[deviceId].owner == address(0))`) is kept verbatim, so
  nothing proved below depends on hash injectivity.
-/

namespace ThingID

/-- The `Device` struct of `ThingID.sol`: identity metadata, the owning
address, registration time and the active flag. -/
structure Device where
  did : String
  name : String
  deviceType : String
  manufacturer : String
  model : String
  serialNumber : String
  location : String
  publicKey : String
  owner : Nat
  registeredAt : Nat
  isActive : Bool
  deriving Repr, DecidableEq

/-- The all-zero `Device`, the default value a Solidity mapping returns for
an unregistered key. Existence of a device is `owner ≠ 0`. -/
def defaultDevice : Device :=
  { did := "", name := "", deviceType := "", manufacturer := "", model := "",
    serialNumber := "", location := "", publicKey := "",
    owner := 0, registeredAt := 0, isActive := false }

/-- The `AccessPass` struct of `ThingID.sol`: one historical grant record. -/
structure AccessPass where
  device_owner : Nat
  viewer : Nat
  grantedAt : Nat
  expiresAt : Nat
  isActive : Bool
  deriving Repr, DecidableEq

/-- The contract storage: `devices`, `ownerDevices`, `deviceAccessPasses`,
`viewerAccess` (the derived access index) and `allDeviceIds`, each mapping
modelled as a total function with zero defaults. -/
structure ContractState where
  devices : Nat → Device
  ownerDevices : Nat → List Nat
  deviceAccessPasses : Nat → List AccessPass
  viewerAccess : Nat → Nat → Nat
  allDeviceIds : List Nat

/-- Storage at deployment: every mapping at its zero default. -/
def initialState : ContractState :=
  { devices := fun _ => defaultDevice
    ownerDevices := fun _ => []
    deviceAccessPasses := fun _ => []
    viewerAccess := fun _ _ => 0
    allDeviceIds := [] }

/-- The revert reasons of the contract's `require` statements, one
constructor per message string. -/
inductive ContractError where
  | didCannotBeEmpty        -- "DID cannot be empty"
  | nameCannotBeEmpty       -- "Name cannot be empty"
  | deviceIdCollision       -- "Device ID collision"
  | notDeviceOwner          -- "Not device owner"
  | deviceDoesNotExist      -- "Device does not exist"
  | deviceNotActive         -- "Device is not active"
  | invalidViewerAddress    -- "Invalid viewer address"
  | cannotGrantToSelf       -- "Cannot grant access to self"
  | invalidDuration         -- "Invalid duration"
  | indexOutOfBounds        -- "Index out of bounds"
  deriving Repr, DecidableEq

/-- The spec's error taxonomy (§7) classifies malformed, missing or
out-of-range input as ValidationError; authorization, not-found, collision
and enumeration failures are separate categories, and the device-inactive
revert has no ValidationError reading. -/
def ContractError.isValidationError : ContractError → Bool
  | .didCannotBeEmpty => true
  | .nameCannotBeEmpty => true
  | .invalidViewerAddress => true
  | .cannotGrantToSelf => true
  | .invalidDuration => true
  | _ => false

/-- The spec's AuthorizationError: the caller is not the required owner. -/
def ContractError.isAuthorizationError : ContractError → Bool
  | .notDeviceOwner => true
  | _ => false

/-- Solidity `365 days`, the upper bound on a grant's duration. -/
def SECONDS_PER_YEAR : Nat := 31536000

/-- `registerDevice`: requires a nonempty DID and name, a fresh
`deviceId` (the keccak output, here an explicit argument), then stores the
device with `owner := sender`, `isActive := true`, and indexes it under
its owner and in `allDeviceIds`. Returns the new id. -/
def registerDevice (σ : ContractState)
    (did name deviceType manufacturer model serialNumber location publicKey : String)
    (sender now deviceId : Nat) :
    Except ContractError (ContractState × Nat) :=
  if did.isEmpty then .error .didCannotBeEmpty
  else if name.isEmpty then .error .nameCannotBeEmpty
  else if (σ.devices deviceId).owner ≠ 0 then .error .deviceIdCollision
  else
    let d : Device :=
      { did := did, name := name, deviceType := deviceType,
        manufacturer := manufacturer, model := model,
        serialNumber := serialNumber, location := location,
        publicKey := publicKey, owner := sender, registeredAt := now,
        isActive := true }
    .ok ({ σ with
            devices := fun i => if i = deviceId then d else σ.devices i
            ownerDevices := fun a =>
              if a = sender then σ.ownerDevices a ++ [deviceId] else σ.ownerDevices a
            allDeviceIds := σ.allDeviceIds ++ [deviceId] },
         deviceId)

/-- `grantAccess`: modifiers `deviceExists`, `onlyDeviceOwner`,
`deviceActive` in that order, then the three body requires; on success
appends an `AccessPass` and overwrites the access index entry with the new
expiry `now + duration`. -/
def grantAccess (σ : ContractState) (deviceId viewer duration : Nat)
    (sender now : Nat) : Except ContractError ContractState :=
  if (σ.devices deviceId).owner = 0 then .error .deviceDoesNotExist
  else if (σ.devices deviceId).owner ≠ sender then .error .notDeviceOwner
  else if ¬ (σ.devices deviceId).isActive then .error .deviceNotActive
  else if viewer = 0 then .error .invalidViewerAddress
  else if viewer = sender then .error .cannotGrantToSelf
  else if ¬ (duration > 0 ∧ duration ≤ SECONDS_PER_YEAR) then .error .invalidDuration
  else
    let expiresAt := now + duration
    let pass : AccessPass :=
      { device_owner := sender, viewer := viewer, grantedAt := now,
        expiresAt := expiresAt, isActive := true }
    .ok { σ with
          deviceAccessPasses := fun i =>
            if i = deviceId then σ.deviceAccessPasses i ++ [pass]
            else σ.deviceAccessPasses i
          viewerAccess := fun i v =>
            if i = deviceId ∧ v = viewer then expiresAt else σ.viewerAccess i v }

/-- `revokeAccess`: modifiers `deviceExists`, `onlyDeviceOwner`; zeroes the
access index entry for the viewer. The pass history is untouched. -/
def revokeAccess (σ : ContractState) (deviceId viewer : Nat) (sender : Nat) :
    Except ContractError ContractState :=
  if (σ.devices deviceId).owner = 0 then .error .deviceDoesNotExist
  else if (σ.devices deviceId).owner ≠ sender then .error .notDeviceOwner
  else
    .ok { σ with
          viewerAccess := fun i v =>
            if i = deviceId ∧ v = viewer then 0 else σ.viewerAccess i v }

/-- `hasAccess`: modifier `deviceExists`; the owner always has access,
anyone else exactly when the access index entry exceeds `block.timestamp`. -/
def hasAccess (σ : ContractState) (deviceId viewer : Nat) (now : Nat) :
    Except ContractError Bool :=
  if (σ.devices deviceId).owner = 0 then .error .deviceDoesNotExist
  else if (σ.devices deviceId).owner = viewer then .ok true
  else .ok (decide (σ.viewerAccess deviceId viewer > now))

/-- `updateDevice`: modifiers `deviceExists`, `onlyDeviceOwner`, nonempty
name; mutates name and location in place. -/
def updateDevice (σ : ContractState) (deviceId : Nat) (name location : String)
    (sender : Nat) : Except ContractError ContractState :=
  if (σ.devices deviceId).owner = 0 then .error .deviceDoesNotExist
  else if (σ.devices deviceId).owner ≠ sender then .error .notDeviceOwner
  else if name.isEmpty then .error .nameCannotBeEmpty
  else
    .ok { σ with
          devices := fun i =>
            if i = deviceId then { σ.devices i with name := name, location := location }
            else σ.devices i }

/-- `toggleDeviceStatus`: modifiers `deviceExists`, `onlyDeviceOwner`;
flips the active flag. -/
def toggleDeviceStatus (σ : ContractState) (deviceId : Nat) (sender : Nat) :
    Except ContractError ContractState :=
  if (σ.devices deviceId).owner = 0 then .error .deviceDoesNotExist
  else if (σ.devices deviceId).owner ≠ sender then .error .notDeviceOwner
  else
    .ok { σ with
          devices := fun i =>
            if i = deviceId then { σ.devices i with isActive := ¬ (σ.devices i).isActive }
            else σ.devices i }

/-- `getDeviceAccessPasses` (the spec's `listPasses`): modifier
`deviceExists`; returns the full append-only history. -/
def getDeviceAccessPasses (σ : ContractState) (deviceId : Nat) :
    Except ContractError (List AccessPass) :=
  if (σ.devices deviceId).owner = 0 then .error .deviceDoesNotExist
  else .ok (σ.deviceAccessPasses deviceId)

/-- `getAccessExpiration` (the spec's `expirationOf`): no modifier, a bare
mapping read. -/
def getAccessExpiration (σ : ContractState) (deviceId viewer : Nat) : Nat :=
  σ.viewerAccess deviceId viewer

/-! ## Derived notions used by the claims -/

/-- Whether a call outcome is a revert the spec's taxonomy classifies as a
ValidationError. -/
def isValidationFailure {α : Type} : Except ContractError α → Bool
  | .error e => e.isValidationError
  | .ok _ => false

/-- The most recently granted pass for a (device, viewer) pair: the last
entry of the device's append-only history naming that viewer. -/
def lastViewerPass (σ : ContractState) (deviceId viewer : Nat) : Option AccessPass :=
  ((σ.deviceAccessPasses deviceId).filter (fun p => p.viewer == viewer)).getLast?

/-- The spec's access-index invariant, stated on storage alone: every
access index entry is either `0` — never granted, or revoked since the
last grant — or the expiry of the most recently granted pass for the
pair. -/
def accessIndexInv (σ : ContractState) : Prop :=
  ∀ deviceId viewer, σ.viewerAccess deviceId viewer = 0 ∨
    ∃ p, lastViewerPass σ deviceId viewer = some p ∧
      σ.viewerAccess deviceId viewer = p.expiresAt

/-- The state `revokeAccess` produces on success: only the access index
entry of the revoked (device, viewer) pair is zeroed. -/
def revokedState (σ : ContractState) (deviceId viewer : Nat) : ContractState :=
  { σ with
    viewerAccess := fun i v =>
      if i = deviceId ∧ v = viewer then 0 else σ.viewerAccess i v }


/-- One transaction: a successful call to any of the contract's five
mutating entry points. -/
inductive Step : ContractState → ContractState → Prop where
  | register (σ σ' : ContractState)
      (did name deviceType manufacturer model serialNumber location publicKey : String)
      (sender now deviceId rid : Nat)
      (h : registerDevice σ did name deviceType manufacturer model serialNumber
            location publicKey sender now deviceId = Except.ok (σ', rid)) :
      Step σ σ'
  | grant (σ σ' : ContractState) (deviceId viewer duration sender now : Nat)
      (h : grantAccess σ deviceId viewer duration sender now = Except.ok σ') :
      Step σ σ'
  | revoke (σ σ' : ContractState) (deviceId viewer sender : Nat)
      (h : revokeAccess σ deviceId viewer sender = Except.ok σ') : Step σ σ'
  | update (σ σ' : ContractState) (deviceId : Nat) (name location : String)
      (sender : Nat)
      (h : updateDevice σ deviceId name location sender = Except.ok σ') : Step σ σ'
  | toggle (σ σ' : ContractState) (deviceId sender : Nat)
      (h : toggleDeviceStatus σ deviceId sender = Except.ok σ') : Step σ σ'

/-- The states reachable from deployment by successful transactions. -/
inductive Reachable : ContractState → Prop where
  | init : Reachable initialState
  | step (σ σ' : ContractState) (hσ : Reachable σ) (hstep : Step σ σ') :
      Reachable σ'

/-! ## Concrete states for witnesses -/

/-- One registered, active device `1` owned by address `1`, no passes. -/
def demoState : ContractState :=
  { devices := fun i =>
      if i = 1 then
        { did := "did-demo-1", name := "temp sensor", deviceType := "sensor",
          manufacturer := "SensorCo", model := "S1", serialNumber := "SC-1",
          location := "lab", publicKey := "pk1", owner := 1,
          registeredAt := 10, isActive := true }
      else defaultDevice
    ownerDevices := fun a => if a = 1 then [1] else []
    deviceAccessPasses := fun _ => []
    viewerAccess := fun _ _ => 0
    allDeviceIds := [1] }

/-- Like `demoState`, but the device's active flag has been toggled off. -/
def demoInactive : ContractState :=
  { demoState with
    devices := fun i =>
      if i = 1 then
        { did := "did-demo-1", name := "temp sensor", deviceType := "sensor",
          manufacturer := "SensorCo", model := "S1", serialNumber := "SC-1",
          location := "lab", publicKey := "pk1", owner := 1,
          registeredAt := 10, isActive := false }
      else defaultDevice }

/-- `demoState` after owner `1` grants viewer `2` a 100-second pass at
time 50. -/
def demoGrant1 : ContractState :=
  (grantAccess demoState 1 2 100 1 50).toOption.getD initialState

/-- `demoGrant1` after owner `1` re-grants viewer `2` a 200-second pass at
time 60. -/
def demoGrant2 : ContractState :=
  (grantAccess demoGrant1 1 2 200 1 60).toOption.getD initialState

/-- `demoGrant1` after owner `1` revokes viewer `2`. -/
def demoRevoked : ContractState :=
  (revokeAccess demoGrant1 1 2 1).toOption.getD initialState
/-- `demoState` after its owner renames and relocates the device. -/
def demoUpdated : ContractState :=
  (updateDevice demoState 1 "gateway sensor" "roof" 1).toOption.getD initialState

/-! ## Success-case inversion lemmas -/

/-- Inverting a successful `grantAccess`: every guard held and the
successor state is the literal push-and-overwrite update. -/
theorem grantAccess_ok_elim {σ σ' : ContractState}
    {deviceId viewer duration sender now : Nat}
    (h : grantAccess σ deviceId viewer duration sender now = Except.ok σ') :
    (σ.devices deviceId).owner = sender ∧ (σ.devices deviceId).owner ≠ 0 ∧
      (σ.devices deviceId).isActive = true ∧ viewer ≠ 0 ∧ viewer ≠ sender ∧
      0 < duration ∧ duration ≤ SECONDS_PER_YEAR ∧
      σ' = { σ with
        deviceAccessPasses := fun i =>
          if i = deviceId then
            σ.deviceAccessPasses i ++
              [{ device_owner := sender, viewer := viewer, grantedAt := now,
                 expiresAt := now + duration, isActive := true }]
          else σ.deviceAccessPasses i
        viewerAccess := fun i v =>
          if i = deviceId ∧ v = viewer then now + duration
          else σ.viewerAccess i v } := by
  unfold grantAccess at h
  split_ifs at h with h1 h2 h3 h4 h5 h6
  simp only [Except.ok.injEq] at h
  exact ⟨not_ne_iff.mp h2, h1, h3, h4, h5, h6.1, h6.2, h.symm⟩

/-- Inverting a successful `revokeAccess`: the device exists, the caller is
its owner, and only the access index entry for the viewer changes. -/
theorem revokeAccess_ok_elim {σ σ' : ContractState} {deviceId viewer sender : Nat}
    (h : revokeAccess σ deviceId viewer sender = Except.ok σ') :
    (σ.devices deviceId).owner = sender ∧ (σ.devices deviceId).owner ≠ 0 ∧
      σ' = { σ with
        viewerAccess := fun i v =>
          if i = deviceId ∧ v = viewer then 0 else σ.viewerAccess i v } := by
  unfold revokeAccess at h
  split_ifs at h with h1 h2
  simp only [Except.ok.injEq] at h
  exact ⟨not_ne_iff.mp h2, h1, h.symm⟩

/-- Inverting a successful `registerDevice`: the slot was free and the new
device is stored with `owner := sender`. -/
theorem registerDevice_ok_elim {σ σ' : ContractState} {rid : Nat}
    {did name deviceType manufacturer model serialNumber location publicKey : String}
    {sender now deviceId : Nat}
    (h : registerDevice σ did name deviceType manufacturer model serialNumber
          location publicKey sender now deviceId = Except.ok (σ', rid)) :
    did.isEmpty = false ∧ name.isEmpty = false ∧
      (σ.devices deviceId).owner = 0 ∧ rid = deviceId ∧
      σ' = { σ with
        devices := fun i =>
          if i = deviceId then
            { did := did, name := name, deviceType := deviceType,
              manufacturer := manufacturer, model := model,
              serialNumber := serialNumber, location := location,
              publicKey := publicKey, owner := sender, registeredAt := now,
              isActive := true }
          else σ.devices i
        ownerDevices := fun a =>
          if a = sender then σ.ownerDevices a ++ [deviceId] else σ.ownerDevices a
        allDeviceIds := σ.allDeviceIds ++ [deviceId] } := by
  unfold registerDevice at h
  split_ifs at h with h1 h2 h3
  simp only [Except.ok.injEq, Prod.mk.injEq] at h
  exact ⟨Bool.of_not_eq_true h1, Bool.of_not_eq_true h2, not_ne_iff.mp h3, h.2.symm, h.1.symm⟩

/-- Inverting a successful `updateDevice`: only name and location of the
target device change. -/
theorem updateDevice_ok_elim {σ σ' : ContractState} {deviceId sender : Nat}
    {name location : String}
    (h : updateDevice σ deviceId name location sender = Except.ok σ') :
    (σ.devices deviceId).owner = sender ∧ (σ.devices deviceId).owner ≠ 0 ∧
      σ' = { σ with
        devices := fun i =>
          if i = deviceId then { σ.devices i with name := name, location := location }
          else σ.devices i } := by
  unfold updateDevice at h
  split_ifs at h with h1 h2 h3
  simp only [Except.ok.injEq] at h
  exact ⟨not_ne_iff.mp h2, h1, h.symm⟩

/-- Inverting a successful `toggleDeviceStatus`: only the target device's
active flag flips. -/
theorem toggleDeviceStatus_ok_elim {σ σ' : ContractState} {deviceId sender : Nat}
    (h : toggleDeviceStatus σ deviceId sender = Except.ok σ') :
    (σ.devices deviceId).owner = sender ∧ (σ.devices deviceId).owner ≠ 0 ∧
      σ' = { σ with
        devices := fun i =>
          if i = deviceId then { σ.devices i with isActive := ¬ (σ.devices i).isActive }
          else σ.devices i } := by
  unfold toggleDeviceStatus at h
  split_ifs at h with h1 h2
  simp only [Except.ok.injEq] at h
  exact ⟨not_ne_iff.mp h2, h1, h.symm⟩

/-! ## The claims -/

/-- Claim C1: for a registered device, `hasAccess` returns `true` whenever
the viewer is the device's owner — regardless of any pass state — and for
any other viewer it returns `true` exactly when the access index entry
`viewerAccess[deviceId][viewer]` strictly exceeds the current time. -/
theorem hasAccess_owner_and_index (σ : ContractState) (deviceId viewer now : Nat)
    (hex : (σ.devices deviceId).owner ≠ 0) :
    ((σ.devices deviceId).owner = viewer →
      hasAccess σ deviceId viewer now = Except.ok true) ∧
    ((σ.devices deviceId).owner ≠ viewer →
      (hasAccess σ deviceId viewer now = Except.ok true ↔
        σ.viewerAccess deviceId viewer > now)) := by
  constructor
  · intro hv
    unfold hasAccess
    rw [if_neg hex, if_pos hv]
  · intro hv
    unfold hasAccess
    rw [if_neg hex, if_neg hv]
    simp

/-- Witness for C1 on `demoState`: address `1` owns device `1`, so it has
access at time 20; viewer `2` is not the owner, so its access is the index
comparison. -/
theorem hasAccess_owner_and_index_witness :
    hasAccess demoState 1 1 20 = Except.ok true ∧
    (hasAccess demoState 1 2 20 = Except.ok true ↔ demoState.viewerAccess 1 2 > 20) :=
  ⟨(hasAccess_owner_and_index demoState 1 1 20 (by decide)).1 (by decide),
   (hasAccess_owner_and_index demoState 1 2 20 (by decide)).2 (by decide)⟩

/-- Claim C5: on a registered device, a grant attempt by any caller other
than the owner reverts with `notDeviceOwner` ("Not device owner"), the
spec's AuthorizationError; the revert produces no successor state, so the
device record, pass history and access index are untouched. -/
theorem grant_nonowner_authorization_error (σ : ContractState)
    (deviceId viewer duration sender now : Nat)
    (hex : (σ.devices deviceId).owner ≠ 0)
    (hns : (σ.devices deviceId).owner ≠ sender) :
    grantAccess σ deviceId viewer duration sender now =
      Except.error ContractError.notDeviceOwner ∧
    ContractError.isAuthorizationError ContractError.notDeviceOwner = true := by
  refine ⟨?_, rfl⟩
  unfold grantAccess
  rw [if_neg hex, if_pos hns]

/-- Witness for C5 on `demoState`: non-owner `2` attempting a grant on
device `1` fails with the authorization error. -/
theorem grant_nonowner_authorization_error_witness :
    grantAccess demoState 1 3 100 2 50 =
      Except.error ContractError.notDeviceOwner ∧
    ContractError.isAuthorizationError ContractError.notDeviceOwner = true :=
  grant_nonowner_authorization_error demoState 1 3 100 2 50 (by decide) (by decide)

/-- Claim C9: on a registered device whose active flag is off, even the
owner's well-formed grant reverts with `deviceNotActive` ("Device is not
active") — no state change — while `revokeAccess` has no active-flag
guard and succeeds for the owner on the same inactive device. -/
theorem grant_requires_active_revoke_does_not (σ : ContractState)
    (deviceId viewer duration sender now : Nat)
    (hex : (σ.devices deviceId).owner ≠ 0)
    (hown : (σ.devices deviceId).owner = sender)
    (hinact : (σ.devices deviceId).isActive = false) :
    grantAccess σ deviceId viewer duration sender now =
      Except.error ContractError.deviceNotActive ∧
    revokeAccess σ deviceId viewer sender =
      Except.ok { σ with
        viewerAccess := fun i v =>
          if i = deviceId ∧ v = viewer then 0 else σ.viewerAccess i v } := by
  constructor
  · unfold grantAccess
    rw [if_neg hex, if_neg (not_ne_iff.mpr hown), if_pos]
    simp [hinact]
  · unfold revokeAccess
    rw [if_neg hex, if_neg (not_ne_iff.mpr hown)]

/-- Witness for C9 on `demoInactive`: the owner's grant to viewer `2`
fails with the inactive-device error, and the owner's revoke succeeds. -/
theorem grant_requires_active_revoke_does_not_witness :
    grantAccess demoInactive 1 2 100 1 50 =
      Except.error ContractError.deviceNotActive ∧
    revokeAccess demoInactive 1 2 1 =
      Except.ok { demoInactive with
        viewerAccess := fun i v =>
          if i = 1 ∧ v = 2 then 0 else demoInactive.viewerAccess i v } :=
  grant_requires_active_revoke_does_not demoInactive 1 2 100 1 50
    (by decide) (by decide) (by decide)

/-- Claim C3: after the owner grants viewer `B` a pass and then revokes it
— even before the granted expiry has elapsed — `hasAccess` answers `false`
for `B` and `getAccessExpiration` answers `0`. -/
theorem revoke_then_no_access (σ σ₁ σ₂ : ContractState)
    (deviceId viewerB duration ownerA now tQuery : Nat)
    (hg : grantAccess σ deviceId viewerB duration ownerA now = Except.ok σ₁)
    (hnotElapsed : tQuery < now + duration)
    (hr : revokeAccess σ₁ deviceId viewerB ownerA = Except.ok σ₂) :
    hasAccess σ₂ deviceId viewerB tQuery = Except.ok false ∧
    getAccessExpiration σ₂ deviceId viewerB = 0 := by
  obtain ⟨hown, hne0, hact, hv0, hvs, hd0, hdY, hσ₁⟩ := grantAccess_ok_elim hg
  obtain ⟨hown', hne0', hσ₂⟩ := revokeAccess_ok_elim hr
  subst hσ₁ hσ₂
  have hovb : (σ.devices deviceId).owner ≠ viewerB := by
    intro hcontra
    exact hvs (by rw [← hcontra, hown])
  constructor
  · simp [hasAccess, hne0, hovb]
  · simp [getAccessExpiration]

/-- Witness for C3: owner `1` grants viewer `2` a 100-second pass at time
50 on `demoState`, then revokes; at time 100 — before the original expiry
150 — viewer `2` has no access and a zero recorded expiration. -/
theorem revoke_then_no_access_witness :
    hasAccess demoRevoked 1 2 100 = Except.ok false ∧
    getAccessExpiration demoRevoked 1 2 = 0 :=
  revoke_then_no_access demoState demoGrant1 demoRevoked 1 2 100 1 50 100
    rfl (by decide) rfl

/-- Claim C6: a successful re-grant to a viewer who already holds a pass
overwrites the access index entry with the new expiry — last grant wins,
the durations do not accumulate — and appends a fresh pass record, leaving
every previously recorded pass of the history unchanged in place. -/
theorem regrant_overwrites_index_appends_history (σ σ₁ σ₂ : ContractState)
    (deviceId viewer dur₁ dur₂ sender now₁ now₂ : Nat)
    (h₁ : grantAccess σ deviceId viewer dur₁ sender now₁ = Except.ok σ₁)
    (h₂ : grantAccess σ₁ deviceId viewer dur₂ sender now₂ = Except.ok σ₂) :
    σ₂.viewerAccess deviceId viewer = now₂ + dur₂ ∧
    σ₂.deviceAccessPasses deviceId =
      σ₁.deviceAccessPasses deviceId ++
        [{ device_owner := sender, viewer := viewer, grantedAt := now₂,
           expiresAt := now₂ + dur₂, isActive := true }] ∧
    σ₁.deviceAccessPasses deviceId =
      σ.deviceAccessPasses deviceId ++
        [{ device_owner := sender, viewer := viewer, grantedAt := now₁,
           expiresAt := now₁ + dur₁, isActive := true }] := by
  obtain ⟨-, -, -, -, -, -, -, hσ₁⟩ := grantAccess_ok_elim h₁
  obtain ⟨-, -, -, -, -, -, -, hσ₂⟩ := grantAccess_ok_elim h₂
  subst hσ₂ hσ₁
  refine ⟨by simp, by simp, by simp⟩

/-- Witness for C6 on `demoState`: grant 100 seconds at time 50, re-grant
200 seconds at time 60; the index reads `60 + 200` and the history is the
two appends in order. -/
theorem regrant_overwrites_index_appends_history_witness :
    demoGrant2.viewerAccess 1 2 = 60 + 200 ∧
    demoGrant2.deviceAccessPasses 1 =
      demoGrant1.deviceAccessPasses 1 ++
        [{ device_owner := 1, viewer := 2, grantedAt := 60,
           expiresAt := 60 + 200, isActive := true }] ∧
    demoGrant1.deviceAccessPasses 1 =
      demoState.deviceAccessPasses 1 ++
        [{ device_owner := 1, viewer := 2, grantedAt := 50,
           expiresAt := 50 + 100, isActive := true }] :=
  regrant_overwrites_index_appends_history demoState demoGrant1 demoGrant2
    1 2 100 200 1 50 60 rfl rfl

/-- Claim C8: for the owner of a registered device, `revokeAccess`
succeeds with no requirement that any pass for the viewer exists, zeroes
the access index entry, and is idempotent: a second revoke returns exactly
the state the first one produced. -/
theorem revoke_idempotent_no_pass_required (σ : ContractState)
    (deviceId viewer sender : Nat)
    (hex : (σ.devices deviceId).owner ≠ 0)
    (hown : (σ.devices deviceId).owner = sender) :
    revokeAccess σ deviceId viewer sender =
      Except.ok (revokedState σ deviceId viewer) ∧
    (revokedState σ deviceId viewer).viewerAccess deviceId viewer = 0 ∧
    revokeAccess (revokedState σ deviceId viewer) deviceId viewer sender =
      Except.ok (revokedState σ deviceId viewer) := by
  refine ⟨?_, by simp [revokedState], ?_⟩
  · unfold revokeAccess
    rw [if_neg hex, if_neg (not_ne_iff.mpr hown)]
    rfl
  · unfold revokeAccess
    rw [if_neg (show ¬ ((revokedState σ deviceId viewer).devices deviceId).owner = 0 from hex),
        if_neg (show ¬ ((revokedState σ deviceId viewer).devices deviceId).owner ≠ sender
          from not_ne_iff.mpr hown)]
    have hfun : (fun i v => if i = deviceId ∧ v = viewer then 0
        else (revokedState σ deviceId viewer).viewerAccess i v) =
        (revokedState σ deviceId viewer).viewerAccess := by
      funext i v
      by_cases h : i = deviceId ∧ v = viewer
      · simp [revokedState, h]
      · simp [h]
    rw [hfun]

/-- Witness for C8 on `demoState`: the owner revokes viewer `5`, who was
never granted a pass; the call succeeds, the index entry is zero, and a
repeat revoke returns the same state. -/
theorem revoke_idempotent_no_pass_required_witness :
    revokeAccess demoState 1 5 1 = Except.ok (revokedState demoState 1 5) ∧
    (revokedState demoState 1 5).viewerAccess 1 5 = 0 ∧
    revokeAccess (revokedState demoState 1 5) 1 5 1 =
      Except.ok (revokedState demoState 1 5) :=
  revoke_idempotent_no_pass_required demoState 1 5 1 (by decide) (by decide)

/-- Counterexample to C4 as stated: `demoInactive` is a registered device
owned by caller `1` whose active flag is off. The owner's grant with the
null viewer `0` and duration `0` — both claimed ValidationError triggers —
reverts with the inactive-device error instead, because the
`deviceActive` modifier runs before any input validation; the spec's
taxonomy gives that revert no ValidationError reading. -/
theorem grant_validation_requires_active_cex :
    grantAccess demoInactive 1 0 0 1 50 =
      Except.error ContractError.deviceNotActive ∧
    isValidationFailure (grantAccess demoInactive 1 0 0 1 50) = false :=
  ⟨rfl, rfl⟩

/-- Claim C4 as amended: for a grant by the owner of a registered device
that is also active, the call reverts with a ValidationError — and hence
leaves all state unchanged — whenever the viewer equals the caller, the
viewer is the zero identity, or the duration is `0` or greater than
`31536000` seconds. -/
theorem grant_invalid_input_validation_error (σ : ContractState)
    (deviceId viewer duration sender now : Nat)
    (hex : (σ.devices deviceId).owner ≠ 0)
    (hown : (σ.devices deviceId).owner = sender)
    (hact : (σ.devices deviceId).isActive = true)
    (hbad : viewer = sender ∨ viewer = 0 ∨ duration = 0 ∨
      duration > SECONDS_PER_YEAR) :
    isValidationFailure (grantAccess σ deviceId viewer duration sender now) =
      true := by
  unfold grantAccess
  rw [if_neg hex, if_neg (not_ne_iff.mpr hown), if_neg (by simp [hact])]
  by_cases hv0 : viewer = 0
  · rw [if_pos hv0]
    rfl
  · rw [if_neg hv0]
    by_cases hvs : viewer = sender
    · rw [if_pos hvs]
      rfl
    · rw [if_neg hvs]
      have hdur : ¬ (duration > 0 ∧ duration ≤ SECONDS_PER_YEAR) := by
        rcases hbad with h | h | h | h
        · exact absurd h hvs
        · exact absurd h hv0
        · intro hc
          omega
        · intro hc
          omega
      rw [if_pos hdur]
      rfl

/-- Witness for the amended C4 on `demoState`: the owner's grant to
viewer `5` with duration `0` is a validation failure. -/
theorem grant_invalid_input_validation_error_witness :
    isValidationFailure (grantAccess demoState 1 5 0 1 50) = true :=
  grant_invalid_input_validation_error demoState 1 5 0 1 50
    (by decide) (by decide) (by decide) (Or.inr (Or.inr (Or.inl rfl)))

/-- Claim C7: the owner of a registered device is fixed at registration —
`registerDevice` writes `owner := sender` into a previously free slot —
and none of the contract's mutating operations changes any registered
owner: `updateDevice` and `toggleDeviceStatus` rewrite only name,
location and the active flag, `grantAccess` and `revokeAccess` leave the
device mapping untouched, and a later `registerDevice` cannot collide
with an occupied slot. No ownership-transfer operation exists in the
interface. -/
theorem owner_immutable_after_registration (σ : ContractState) (d0 : Nat)
    (hreg : (σ.devices d0).owner ≠ 0) :
    (∀ did name ty mf md sn loc pk sender now deviceId σ' rid,
        registerDevice σ did name ty mf md sn loc pk sender now deviceId =
          Except.ok (σ', rid) →
        (σ'.devices d0).owner = (σ.devices d0).owner ∧
        (σ'.devices rid).owner = sender) ∧
    (∀ deviceId name loc sender σ',
        updateDevice σ deviceId name loc sender = Except.ok σ' →
        (σ'.devices d0).owner = (σ.devices d0).owner) ∧
    (∀ deviceId sender σ',
        toggleDeviceStatus σ deviceId sender = Except.ok σ' →
        (σ'.devices d0).owner = (σ.devices d0).owner) ∧
    (∀ deviceId viewer duration sender now σ',
        grantAccess σ deviceId viewer duration sender now = Except.ok σ' →
        σ'.devices = σ.devices) ∧
    (∀ deviceId viewer sender σ',
        revokeAccess σ deviceId viewer sender = Except.ok σ' →
        σ'.devices = σ.devices) := by
  refine ⟨?_, ?_, ?_, ?_, ?_⟩
  · intro did name ty mf md sn loc pk sender now deviceId σ' rid h
    obtain ⟨-, -, hfree, hrid, hσ'⟩ := registerDevice_ok_elim h
    subst hσ'
    constructor
    · by_cases hdd : d0 = deviceId
      · exact absurd (by rw [hdd]; exact hfree) hreg
      · simp [hdd]
    · rw [hrid]
      simp
  · intro deviceId name loc sender σ' h
    obtain ⟨-, -, hσ'⟩ := updateDevice_ok_elim h
    subst hσ'
    by_cases hdd : d0 = deviceId
    · simp [hdd]
    · simp [hdd]
  · intro deviceId sender σ' h
    obtain ⟨-, -, hσ'⟩ := toggleDeviceStatus_ok_elim h
    subst hσ'
    by_cases hdd : d0 = deviceId
    · simp [hdd]
    · simp [hdd]
  · intro deviceId viewer duration sender now σ' h
    obtain ⟨-, -, -, -, -, -, -, hσ'⟩ := grantAccess_ok_elim h
    subst hσ'
    rfl
  · intro deviceId viewer sender σ' h
    obtain ⟨-, -, hσ'⟩ := revokeAccess_ok_elim h
    subst hσ'
    rfl

/-- Witness for C7 on `demoState`: after the owner's `updateDevice` call,
device `1` still belongs to address `1`. -/
theorem owner_immutable_after_registration_witness :
    (demoUpdated.devices 1).owner = (demoState.devices 1).owner :=
  (owner_immutable_after_registration demoState 1 (by decide)).2.1
    1 "gateway sensor" "roof" 1 demoUpdated rfl

/-- Appending a pass naming one viewer leaves unchanged the most recent
filtered pass any other viewer sees. -/
theorem getLast?_filter_concat_other (l : List AccessPass) (pass : AccessPass)
    (v : Nat) (hne : pass.viewer ≠ v) :
    ((l ++ [pass]).filter (fun p => p.viewer == v)).getLast? =
      (l.filter (fun p => p.viewer == v)).getLast? := by
  rw [List.filter_append]
  have hnil : [pass].filter (fun p => p.viewer == v) = [] := by
    rw [List.filter_singleton,
      show (pass.viewer == v) = false from beq_eq_false_iff_ne.mpr hne]
    rfl
  rw [hnil, List.append_nil]

/-- Claim C2: the derived access index satisfies the spec invariant —
every entry is `0` (never granted, or revoked since the last grant) or
the expiry of the most recently granted pass for its (device, viewer)
pair — and every one of the five mutating operations preserves it;
moreover a successful grant makes the appended pass the pair's most
recent one and writes exactly its expiry into the index, and a revoke
zeroes the entry while leaving the historical pass records untouched. -/
theorem access_index_invariant_preserved (σ : ContractState)
    (hinv : accessIndexInv σ) :
    (∀ did name ty mf md sn loc pk sender now deviceId σ' rid,
        registerDevice σ did name ty mf md sn loc pk sender now deviceId =
          Except.ok (σ', rid) →
        accessIndexInv σ') ∧
    (∀ deviceId viewer duration sender now σ',
        grantAccess σ deviceId viewer duration sender now = Except.ok σ' →
        accessIndexInv σ' ∧
        lastViewerPass σ' deviceId viewer =
          some { device_owner := sender, viewer := viewer, grantedAt := now,
                 expiresAt := now + duration, isActive := true } ∧
        σ'.viewerAccess deviceId viewer = now + duration) ∧
    (∀ deviceId viewer sender σ',
        revokeAccess σ deviceId viewer sender = Except.ok σ' →
        accessIndexInv σ' ∧ σ'.viewerAccess deviceId viewer = 0 ∧
        σ'.deviceAccessPasses = σ.deviceAccessPasses) ∧
    (∀ deviceId name loc sender σ',
        updateDevice σ deviceId name loc sender = Except.ok σ' →
        accessIndexInv σ') ∧
    (∀ deviceId sender σ',
        toggleDeviceStatus σ deviceId sender = Except.ok σ' →
        accessIndexInv σ') := by
  refine ⟨?_, ?_, ?_, ?_, ?_⟩
  · intro did name ty mf md sn loc pk sender now deviceId σ' rid h
    obtain ⟨-, -, -, -, hσ'⟩ := registerDevice_ok_elim h
    subst hσ'
    exact hinv
  · intro deviceId viewer duration sender now σ' h
    obtain ⟨-, -, -, -, -, -, -, hσ'⟩ := grantAccess_ok_elim h
    have hpasses : σ'.deviceAccessPasses = fun i =>
        if i = deviceId then
          σ.deviceAccessPasses i ++
            [{ device_owner := sender, viewer := viewer, grantedAt := now,
               expiresAt := now + duration, isActive := true }]
        else σ.deviceAccessPasses i := by
      rw [hσ']
    have hacc : σ'.viewerAccess = fun i v =>
        if i = deviceId ∧ v = viewer then now + duration
        else σ.viewerAccess i v := by
      rw [hσ']
    have hlast : lastViewerPass σ' deviceId viewer =
        some { device_owner := sender, viewer := viewer, grantedAt := now,
               expiresAt := now + duration, isActive := true } := by
      unfold lastViewerPass
      rw [hpasses]
      simp [List.filter_append, List.getLast?_concat]
    refine ⟨?_, hlast, by rw [hacc]; simp⟩
    intro d v
    by_cases hpair : d = deviceId ∧ v = viewer
    · right
      obtain ⟨hd, hv⟩ := hpair
      subst hd hv
      exact ⟨_, hlast, by rw [hacc]; simp⟩
    · have hidx : σ'.viewerAccess d v = σ.viewerAccess d v := by
        rw [hacc]
        simp only [if_neg hpair]
      have hsame : lastViewerPass σ' d v = lastViewerPass σ d v := by
        unfold lastViewerPass
        rw [hpasses]
        by_cases hd : d = deviceId
        · subst hd
          have hv : viewer ≠ v := by
            intro hvv
            exact hpair ⟨rfl, hvv.symm⟩
          simp only [if_pos rfl]
          exact getLast?_filter_concat_other _ _ _ hv
        · simp only [if_neg hd]
      rw [hidx, hsame]
      exact hinv d v
  · intro deviceId viewer sender σ' h
    obtain ⟨-, -, hσ'⟩ := revokeAccess_ok_elim h
    have hacc : σ'.viewerAccess = fun i v =>
        if i = deviceId ∧ v = viewer then 0 else σ.viewerAccess i v := by
      rw [hσ']
    have hpasses : σ'.deviceAccessPasses = σ.deviceAccessPasses := by
      rw [hσ']
    refine ⟨?_, by rw [hacc]; simp, hpasses⟩
    intro d v
    by_cases hpair : d = deviceId ∧ v = viewer
    · left
      rw [hacc]
      simp [hpair]
    · have hidx : σ'.viewerAccess d v = σ.viewerAccess d v := by
        rw [hacc]
        simp only [if_neg hpair]
      have hsame : lastViewerPass σ' d v = lastViewerPass σ d v := by
        unfold lastViewerPass
        rw [hpasses]
      rw [hidx, hsame]
      exact hinv d v
  · intro deviceId name loc sender σ' h
    obtain ⟨-, -, hσ'⟩ := updateDevice_ok_elim h
    subst hσ'
    exact hinv
  · intro deviceId sender σ' h
    obtain ⟨-, -, hσ'⟩ := toggleDeviceStatus_ok_elim h
    subst hσ'
    exact hinv

/-- Witness for C2: starting from `demoState` — whose index rows are all
zero, so the invariant holds — the grant of a 100-second pass to viewer
`2` at time 50 preserves the invariant, makes the new pass the pair's
most recent one, and writes its expiry `50 + 100` into the index. -/
theorem access_index_invariant_preserved_witness :
    accessIndexInv demoGrant1 ∧
    lastViewerPass demoGrant1 1 2 =
      some { device_owner := 1, viewer := 2, grantedAt := 50,
             expiresAt := 50 + 100, isActive := true } ∧
    demoGrant1.viewerAccess 1 2 = 50 + 100 :=
  (access_index_invariant_preserved demoState (fun _ _ => Or.inl rfl)).2.1
    1 2 100 1 50 demoGrant1 rfl

/-- In any reachable state, an unregistered device id has an all-zero
access index row: only `grantAccess` writes a nonzero entry, it requires
the device to exist, and no operation ever clears a stored owner. -/
theorem reachable_unknown_index_zero {σ : ContractState} (hσ : Reachable σ) :
    ∀ d v, (σ.devices d).owner = 0 → σ.viewerAccess d v = 0 := by
  induction hσ with
  | init =>
    intro d v _
    rfl
  | step σ σ' hσ hstep ih =>
    intro d v hd
    cases hstep with
    | register did name ty mf md sn loc pk sender now deviceId rid h =>
      obtain ⟨-, -, hfree, -, hσ'⟩ := registerDevice_ok_elim h
      subst hσ'
      by_cases hdd : d = deviceId
      · exact ih d v (by rw [hdd]; exact hfree)
      · exact ih d v (by simpa [hdd] using hd)
    | grant deviceId viewer duration sender now h =>
      obtain ⟨-, hne0, -, -, -, -, -, hσ'⟩ := grantAccess_ok_elim h
      subst hσ'
      have hdσ : (σ.devices d).owner = 0 := hd
      by_cases hpair : d = deviceId ∧ v = viewer
      · obtain ⟨hd1, -⟩ := hpair
        subst hd1
        exact absurd hdσ hne0
      · simpa [hpair] using ih d v hdσ
    | revoke deviceId viewer sender h =>
      obtain ⟨-, -, hσ'⟩ := revokeAccess_ok_elim h
      subst hσ'
      have hdσ : (σ.devices d).owner = 0 := hd
      by_cases hpair : d = deviceId ∧ v = viewer
      · simp [hpair]
      · simpa [hpair] using ih d v hdσ
    | update deviceId name location sender h =>
      obtain ⟨-, -, hσ'⟩ := updateDevice_ok_elim h
      subst hσ'
      apply ih d v
      by_cases hdd : d = deviceId
      · rw [hdd]
        simpa [hdd] using hd
      · simpa [hdd] using hd
    | toggle deviceId sender h =>
      obtain ⟨-, -, hσ'⟩ := toggleDeviceStatus_ok_elim h
      subst hσ'
      apply ih d v
      by_cases hdd : d = deviceId
      · rw [hdd]
        simpa [hdd] using hd
      · simpa [hdd] using hd

/-- Claim C10: in any reachable state, `hasAccess` on an unregistered
device id reverts with the "Device does not exist" error — it never
answers `false` there — for every viewer, while `getAccessExpiration` on
the same id is an unguarded mapping read that returns `0` without
failing. -/
theorem hasAccess_unknown_device (σ : ContractState) (deviceId viewer now : Nat)
    (hσ : Reachable σ) (hud : (σ.devices deviceId).owner = 0) :
    hasAccess σ deviceId viewer now =
      Except.error ContractError.deviceDoesNotExist ∧
    getAccessExpiration σ deviceId viewer = 0 := by
  refine ⟨?_, reachable_unknown_index_zero hσ deviceId viewer hud⟩
  unfold hasAccess
  rw [if_pos hud]

/-- Witness for C10 at the deployment state: no device `5` exists, so
`hasAccess` reverts and `getAccessExpiration` reads `0`. -/
theorem hasAccess_unknown_device_witness :
    hasAccess initialState 5 7 0 =
      Except.error ContractError.deviceDoesNotExist ∧
    getAccessExpiration initialState 5 7 = 0 :=
  hasAccess_unknown_device initialState 5 7 0 Reachable.init rfl

end ThingID
